import Mathlib

/-!
Verification of the SMTP-server SASL glue module
(`src/postfix/src/smtpd/smtpd_sasl_glue.c`) against its natural-language
specification.  The C code is shallowly embedded: byte strings are
`List Nat`, the per-connection `SMTPD_STATE` SASL fields become a Lean
structure of `Option` fields, the external transport and the credential
backends are oracles / scripts, and every handler returns its result, the
updated state, and the trace of external calls it made.
-/

namespace SmtpdSasl

/-- Byte string of an ASCII Lean string literal. -/
def bytes (s : String) : List Nat := s.toList.map Char.toNat

/-- The abort token `*` that a client sends to give up. -/
def starLine : List Nat := bytes "*"

/-- C-string view of a byte buffer: the bytes before the first NUL. -/
def cstr (l : List Nat) : List Nat := l.takeWhile (· ≠ 0)

/-- Printable ASCII test, as used by the `printable()` utility. -/
def isPrintB (b : Nat) : Bool := 32 ≤ b && b ≤ 126

/-- Modelled from the spec: the `printable()` utility from the util
library (not part of the sources under verification) replaces every
non-printable byte by the placeholder `?` (byte 63). -/
def printable (l : List Nat) : List Nat :=
  l.map fun b => if isPrintB b then b else 63

/-- Value of one base64 digit (0..63) as an ASCII byte. -/
def b64enc1 (n : Nat) : Nat :=
  if n < 26 then 65 + n
  else if n < 52 then 97 + (n - 26)
  else if n < 62 then 48 + (n - 52)
  else if n = 62 then 43 else 47

/-- Inverse base64 digit lookup; `none` on a non-alphabet byte. -/
def b64dec1 (c : Nat) : Option Nat :=
  if 65 ≤ c ∧ c ≤ 90 then some (c - 65)
  else if 97 ≤ c ∧ c ≤ 122 then some (c - 97 + 26)
  else if 48 ≤ c ∧ c ≤ 57 then some (c - 48 + 52)
  else if c = 43 then some 62
  else if c = 47 then some 63
  else none

/-- Modelled from the spec: the base64 encoder of the util library
(not part of the sources under verification): deterministic padded
base64, no line wrapping. -/
def base64_encode : List Nat → List Nat
  | [] => []
  | [a] => [b64enc1 (a / 4), b64enc1 (a % 4 * 16), 61, 61]
  | [a, b] => [b64enc1 (a / 4), b64enc1 (a % 4 * 16 + b / 16), b64enc1 (b % 16 * 4), 61]
  | a :: b :: c :: rest =>
      b64enc1 (a / 4) :: b64enc1 (a % 4 * 16 + b / 16) ::
      b64enc1 (b % 16 * 4 + c / 64) :: b64enc1 (c % 64) :: base64_encode rest

/-- Modelled from the spec: the base64 decoder of the util library
(not part of the sources under verification): fails (`none`) on
non-alphabet characters or incorrect padding, never crashes. -/
def base64_decode : List Nat → Option (List Nat)
  | [] => some []
  | c1 :: c2 :: c3 :: c4 :: rest =>
    match b64dec1 c1, b64dec1 c2 with
    | some v1, some v2 =>
      if c3 = 61 ∧ c4 = 61 ∧ rest = [] then some [v1 * 4 + v2 / 16]
      else
        match b64dec1 c3 with
        | some v3 =>
          if c4 = 61 ∧ rest = [] then some [v1 * 4 + v2 / 16, v2 % 16 * 16 + v3 / 4]
          else
            match b64dec1 c4, base64_decode rest with
            | some v4, some ds =>
                some ((v1 * 4 + v2 / 16) :: (v2 % 16 * 16 + v3 / 4) :: (v3 % 4 * 64 + v4) :: ds)
            | _, _ => none
        | none => none
    | _, _ => none
  | _ => none

/-- ASCII lower-casing of one byte, as C `tolower` in the C locale. -/
def tolowerB (b : Nat) : Nat := if 65 ≤ b ∧ b ≤ 90 then b + 32 else b

/-- ASCII upper-casing of one byte (used to state case-insensitivity
independently of the `strcasecmp` model). -/
def toupperB (b : Nat) : Nat := if 97 ≤ b ∧ b ≤ 122 then b - 32 else b

/-- Model of `strcasecmp(a, b) == 0`: equality after ASCII lower-casing. -/
def strcasecmpEq (a b : List Nat) : Bool :=
  a.map tolowerB = b.map tolowerB

/-- The SASL-related fields of the per-connection `SMTPD_STATE`.
`Option` models the null/allocated status of each pointer field;
`sasl_server` is the opaque backend context handle. -/
structure SMTPD_STATE where
  sasl_reply : Option (List Nat)
  sasl_mechanism_list : Option (List Nat)
  sasl_username : Option (List Nat)
  sasl_method : Option (List Nat)
  sasl_sender : Option (List Nat)
  sasl_server : Option Unit
deriving DecidableEq, Repr

/-- A state with every SASL field null. -/
def emptyState : SMTPD_STATE :=
  { sasl_reply := none, sasl_mechanism_list := none, sasl_username := none
    sasl_method := none, sasl_sender := none, sasl_server := none }

/-- The resources a cleanup routine can release. -/
inductive Resource where
  | reply | mechList | username | methodName | sender | server
deriving DecidableEq, Repr

/-- Model of `smtpd_sasl_connect`: per-connection initialization.  `create_ok`
models whether `xsasl_server_create` succeeds and `mechs` the mechanism
list returned by the backend (`none` models failure; in C both failures
are `msg_fatal`, ending the process with the state as shown). -/
def smtpd_sasl_connect (create_ok : Bool) (mechs : Option (List Nat))
    (s : SMTPD_STATE) : SMTPD_STATE :=
  let s1 : SMTPD_STATE :=
    { s with sasl_reply := some [], sasl_mechanism_list := none,
             sasl_username := none, sasl_method := none, sasl_sender := none }
  if !create_ok then s1
  else
    let s2 := { s1 with sasl_server := some () }
    match mechs with
    | none => s2
    | some m => { s2 with sasl_mechanism_list := some m }

/-- Model of `smtpd_sasl_logout`: frees and nulls `sasl_username` and
`sasl_method` when set; returns the new state and the released
resources in order. -/
def smtpd_sasl_logout (s : SMTPD_STATE) : SMTPD_STATE × List Resource :=
  let p1 : SMTPD_STATE × List Resource :=
    if s.sasl_username.isSome then
      ({ s with sasl_username := none }, [Resource.username])
    else (s, [])
  let p2 : SMTPD_STATE × List Resource :=
    if p1.1.sasl_method.isSome then
      ({ p1.1 with sasl_method := none }, p1.2 ++ [Resource.methodName])
    else (p1.1, p1.2)
  p2

/-- Model of `smtpd_sasl_disconnect`: per-connection cleanup; frees every
non-null field (nulling it) and releases the backend context. -/
def smtpd_sasl_disconnect (s : SMTPD_STATE) : SMTPD_STATE × List Resource :=
  let f1 : List Resource := if s.sasl_reply.isSome then [Resource.reply] else []
  let f2 : List Resource :=
    if s.sasl_mechanism_list.isSome then [Resource.mechList] else []
  let f3 : List Resource := if s.sasl_username.isSome then [Resource.username] else []
  let f4 : List Resource := if s.sasl_method.isSome then [Resource.methodName] else []
  let f5 : List Resource := if s.sasl_sender.isSome then [Resource.sender] else []
  let f6 : List Resource := if s.sasl_server.isSome then [Resource.server] else []
  (emptyState, f1 ++ f2 ++ f3 ++ f4 ++ f5 ++ f6)

/-- Modelled from the spec: the per-mechanism security-policy bits of
`smtpd_pw_server_sasl_opts` (the `NAME_MASK` table lists none, login,
plain, cram-md5, gssapi; the numeric values live in a header outside
the verified sources — only bit distinctness matters). -/
def PW_SERVER_LOGIN : Nat := 1

/-- Modelled from the spec: policy bit enabling the PLAIN mechanism. -/
def PW_SERVER_PLAIN : Nat := 2

/-- Modelled from the spec: policy bit enabling the CRAM-MD5 mechanism. -/
def PW_SERVER_CRAM_MD5 : Nat := 4

/-- Observable external calls of a handler: transport round trips,
generic-backend steps, and identity-store verifications. -/
inductive Event where
  | chatReply (text : List Nat)
  | chatQuery
  | backendFirst
  | backendNext (line : List Nat)
  | verifyClear (user pwd : List Nat)
  | verifyChal (user chal resp : List Nat)
deriving DecidableEq, Repr

/-- Result of a password-server handler: `ok` is the C `NULL` return
(success), `reply` the returned reply string, `panic` a `msg_panic`,
`hang` models blocking forever on an exhausted response script, and
`oob` marks the out-of-bounds read reachable in `do_auth_plain` when
the decoded payload lacks the expected NUL separator (C undefined
behaviour, left unmodelled). -/
inductive PwResult where
  | ok
  | reply (text : String)
  | panic
  | hang
  | oob
deriving DecidableEq, Repr

/-- Model of `do_auth_login`: the two-round LOGIN exchange.  `verifyClearText`
is the identity-store oracle (`od_do_clear_text_auth == eAOD_no_error`);
`resps` is the script of client lines read by `smtpd_chat_query`. -/
def do_auth_login (opts : Nat) (verifyClearText : List Nat → List Nat → Bool)
    (resps : List (List Nat)) (in_method : List Nat) (s : SMTPD_STATE) :
    PwResult × SMTPD_STATE × List Event :=
  if opts &&& PW_SERVER_LOGIN = 0 then
    (.reply "504 Authentication method not enabled", s, [])
  else
    let evs1 : List Event :=
      [.chatReply (bytes "334 " ++ base64_encode (bytes "Username:")), .chatQuery]
    match resps with
    | [] => (.hang, s, evs1)
    | r1 :: resps1 =>
      if r1 = starLine then (.reply "501 Authentication aborted", s, evs1)
      else
        match base64_decode r1 with
        | none => (.reply "501 Authentication failed: malformed initial response", s, evs1)
        | some user_raw =>
          let evs2 : List Event := evs1 ++
            [.chatReply (bytes "334 " ++ base64_encode (bytes "Password:")), .chatQuery]
          match resps1 with
          | [] => (.hang, s, evs2)
          | r2 :: _ =>
            if r2 = starLine then (.reply "501 Authentication aborted", s, evs2)
            else
              match base64_decode r2 with
              | none => (.reply "501 Authentication failed: malformed response", s, evs2)
              | some pwd_raw =>
                let user := cstr user_raw
                let pwd := cstr pwd_raw
                let evs3 := evs2 ++ [.verifyClear user pwd]
                if verifyClearText user pwd then
                  (.ok, { s with sasl_username := some user,
                                 sasl_method := some in_method }, evs3)
                else (.reply "535 Error: authentication failed", s, evs3)

/-- Field extraction of `do_auth_plain` on the decoded payload, with C
string semantics (the decode buffer is the payload followed by a NUL
terminator).  A missing NUL separator makes the C advance its pointer
past the terminator: `oob`. -/
def plainParse (verifyClearText : List Nat → List Nat → Bool)
    (payload : List Nat) (in_method : List Nat) (s : SMTPD_STATE)
    (evs : List Event) : PwResult × SMTPD_STATE × List Event :=
  match payload with
  | [] => (.oob, s, evs)
  | b :: rest =>
    let buf := if b = 0 then rest else b :: rest
    let p_user := buf.takeWhile (· ≠ 0)
    match buf.dropWhile (· ≠ 0) with
    | [] => (.oob, s, evs)
    | _ :: pwdRest =>
      let p_pwd := pwdRest.takeWhile (· ≠ 0)
      let evs := evs ++ [.verifyClear p_user p_pwd]
      if verifyClearText p_user p_pwd then
        (.ok, { s with sasl_username := some p_user,
                       sasl_method := some in_method }, evs)
      else (.reply "535 Error: authentication failed", s, evs)

/-- Model of `do_auth_plain`: the PLAIN exchange, with optional initial
response.  Note: the client line read in the no-initial-response case
is never compared against the abort token before being decoded. -/
def do_auth_plain (opts : Nat) (verifyClearText : List Nat → List Nat → Bool)
    (resps : List (List Nat)) (in_method : List Nat)
    (in_resp : Option (List Nat)) (s : SMTPD_STATE) :
    PwResult × SMTPD_STATE × List Event :=
  if opts &&& PW_SERVER_PLAIN = 0 then
    (.reply "504 Authentication method not enabled", s, [])
  else
    match in_resp with
    | none =>
      let evs : List Event := [.chatReply (bytes "334"), .chatQuery]
      match resps with
      | [] => (.hang, s, evs)
      | r :: _ =>
        match base64_decode r with
        | none => (.reply "501 Authentication failed: malformed initial response", s, evs)
        | some payload => plainParse verifyClearText payload in_method s evs
    | some ir =>
      match base64_decode ir with
      | none => (.reply "501 Authentication failed: malformed initial response", s, [])
      | some payload => plainParse verifyClearText payload in_method s []

/-- Model of `do_auth_cram_md5`: the CRAM-MD5 exchange.  `chal` is the
challenge string built from pid, random characters, timestamp and host
name (all external inputs); `verifyChallengeResponse` is the
identity-store oracle (`od_validate_response == eAOD_no_error`). -/
def do_auth_cram_md5 (opts : Nat)
    (verifyChallengeResponse : List Nat → List Nat → List Nat → Bool)
    (chal : List Nat) (resps : List (List Nat)) (in_method : List Nat)
    (s : SMTPD_STATE) : PwResult × SMTPD_STATE × List Event :=
  if opts &&& PW_SERVER_CRAM_MD5 = 0 then
    (.reply "504 Authentication method not enabled", s, [])
  else
    let evs : List Event :=
      [.chatReply (bytes "334 " ++ base64_encode chal), .chatQuery]
    match resps with
    | [] => (.hang, s, evs)
    | r :: _ =>
      if r = starLine then (.reply "501 Authentication aborted", s, evs)
      else
        match base64_decode r with
        | none => (.reply "501 Authentication failed: malformed initial response", s, evs)
        | some payload =>
          let resp_str := cstr payload
          if 32 ∈ resp_str then
            let vs_user := resp_str.takeWhile (· ≠ 32)
            let digest := (resp_str.dropWhile (· ≠ 32)).tail
            let evs := evs ++ [.verifyChal vs_user chal digest]
            if verifyChallengeResponse vs_user chal digest then
              (.ok, { s with sasl_username := some vs_user,
                             sasl_method := some in_method }, evs)
            else (.reply "535 Error: authentication failed", s, evs)
          else (.reply "535 Error: authentication failed", s, evs)

/-- Model of `smtpd_pw_server_authenticate`: sanity check against
re-authentication (a `msg_panic`), then case-insensitive dispatch on
the method name, else the unsupported-method reply. -/
def smtpd_pw_server_authenticate (opts : Nat)
    (verifyClearText : List Nat → List Nat → Bool)
    (verifyChallengeResponse : List Nat → List Nat → List Nat → Bool)
    (chal : List Nat) (resps : List (List Nat)) (in_method : List Nat)
    (in_resp : Option (List Nat)) (s : SMTPD_STATE) :
    PwResult × SMTPD_STATE × List Event :=
  if s.sasl_username.isSome || s.sasl_method.isSome then (.panic, s, [])
  else if strcasecmpEq in_method (bytes "LOGIN") then
    do_auth_login opts verifyClearText resps in_method s
  else if strcasecmpEq in_method (bytes "PLAIN") then
    do_auth_plain opts verifyClearText resps in_method in_resp s
  else if strcasecmpEq in_method (bytes "CRAM-MD5") then
    do_auth_cram_md5 opts verifyChallengeResponse chal resps in_method s
  else (.reply "504 Unsupported authentication method", s, [])

/-- Status codes of the pluggable xsasl backend: `DONE`
(`XSASL_AUTH_DONE`), `MORE` (`XSASL_AUTH_MORE`), and `FAIL` standing
for every other (failure) code. -/
inductive XsaslStatus where
  | DONE | MORE | FAIL
deriving DecidableEq, Repr

/-- Script of one backend run: the status and reply text produced by
`xsasl_server_first`, those of each successive `xsasl_server_next`,
and the username `xsasl_server_get_username` would report.  Any real
behaviour of any real backend on a given response sequence is some script. -/
structure BackendScript where
  firstStep : XsaslStatus × List Nat
  nexts : List (XsaslStatus × List Nat)
  username : Option (List Nat)

/-- How the loop of `smtpd_sasl_authenticate` ended: normally with a
final status and reply text, by client abort, or blocked on an
exhausted script. -/
inductive LoopExit where
  | normal (st : XsaslStatus) (rep : List Nat)
  | aborted
  | hang
deriving DecidableEq, Repr

/-- The challenge/response loop of `smtpd_sasl_authenticate`: while
the status is `MORE`, send a 334 challenge, read a client line, abort
on `*`, otherwise feed the line to `xsasl_server_next`. -/
def genericLoop : XsaslStatus → List Nat → List (XsaslStatus × List Nat) →
    List (List Nat) → LoopExit × List Event
  | .MORE, rep, _, [] =>
      (.hang, [.chatReply (bytes "334 " ++ rep), .chatQuery])
  | .MORE, rep, nexts, r :: rs =>
      let evs : List Event := [.chatReply (bytes "334 " ++ rep), .chatQuery]
      if r = starLine then
        (.aborted, evs ++ [.chatReply (bytes "501 5.7.0 Authentication aborted")])
      else
        match nexts with
        | [] => (.hang, evs ++ [.backendNext r])
        | n :: ns =>
          let res := genericLoop n.1 n.2 ns rs
          (res.1, evs ++ Event.backendNext r :: res.2)
  | st, rep, _, _ => (.normal st rep, [])

/-- Overall outcome of `smtpd_sasl_authenticate`: `success` is the C
return 0, `aborted`/`failed` return -1 after the 501/535 reply,
`panicNoUser` is the `msg_panic` when the backend reports done without
a username, `hang` models an exhausted script. -/
inductive AuthOutcome where
  | success | aborted | failed | panicNoUser | hang
deriving DecidableEq, Repr

/-- Model of `smtpd_sasl_authenticate`: drive the backend script over the
client response script; on `DONE`, send the 235 reply and store the
sanitized username and method into the session state. -/
def smtpd_sasl_authenticate (script : BackendScript)
    (resps : List (List Nat)) (sasl_method : List Nat) (s : SMTPD_STATE) :
    AuthOutcome × SMTPD_STATE × List Event :=
  let run := genericLoop script.firstStep.1 script.firstStep.2 script.nexts resps
  let evs := Event.backendFirst :: run.2
  match run.1 with
  | .aborted => (.aborted, s, evs)
  | .hang => (.hang, s, evs)
  | .normal st rep =>
    if st = XsaslStatus.DONE then
      let evs := evs ++ [.chatReply (bytes "235 2.7.0 Authentication successful")]
      match script.username with
      | none => (.panicNoUser, s, evs)
      | some u =>
        (.success,
         { s with sasl_username := some (printable u),
                  sasl_method := some (printable sasl_method) }, evs)
    else
      (.failed, s,
       evs ++ [.chatReply (bytes "535 5.7.8 Error: authentication failed: " ++ rep)])

/-- Result of `smtpd_sasl_initialize`: normal return, the repeated-call
`msg_panic`, or the `msg_fatal` when the xsasl library fails to
initialize. -/
inductive InitResult where
  | ok | panicRepeated | fatalInitFailed
deriving DecidableEq, Repr

/-- Model of `smtpd_sasl_initialize` (process-wide, Apple variant): when
`in_use_pw_server` is set, first store the configured policy mask;
then panic if the implementation handle is already set, else install
it (`init_ok` models `xsasl_server_init` succeeding).  State is the
pair (implementation handle, policy mask). -/
def smtpd_sasl_init (in_use_pw_server : Bool) (configMask : Nat) (init_ok : Bool)
    (impl : Option Unit) (opts : Nat) : InitResult × Option Unit × Nat :=
  let opts' := if in_use_pw_server then configMask else opts
  if impl.isSome then (.panicRepeated, impl, opts')
  else if init_ok then (.ok, some (), opts')
  else (.fatalInitFailed, impl, opts')

/-- One session-level operation, with every external input it needs. -/
inductive Op where
  | connect (create_ok : Bool) (mechs : Option (List Nat))
  | authenticate (script : BackendScript) (resps : List (List Nat))
      (sasl_method : List Nat)
  | pwAuthenticate (opts : Nat) (vc : List Nat → List Nat → Bool)
      (vch : List Nat → List Nat → List Nat → Bool) (chal : List Nat)
      (resps : List (List Nat)) (in_method : List Nat)
      (in_resp : Option (List Nat))
  | logout
  | disconnect

/-- Effect of one operation on the session state. -/
def applyOp (s : SMTPD_STATE) : Op → SMTPD_STATE
  | .connect ok m => smtpd_sasl_connect ok m s
  | .authenticate sc rs m => (smtpd_sasl_authenticate sc rs m s).2.1
  | .pwAuthenticate o vc vch ch rs m ir =>
      (smtpd_pw_server_authenticate o vc vch ch rs m ir s).2.1
  | .logout => (smtpd_sasl_logout s).1
  | .disconnect => (smtpd_sasl_disconnect s).1

/-- The identity invariant: username and method both set or both
absent. -/
def authInv (s : SMTPD_STATE) : Bool :=
  s.sasl_username.isSome = s.sasl_method.isSome

/-- Does an event trace contain any identity-store verification call? -/
def hasVerify (evs : List Event) : Bool :=
  evs.any fun e =>
    match e with
    | .verifyClear _ _ => true
    | .verifyChal _ _ _ => true
    | _ => false

/-- C9: `logout` is idempotent (a second logout on the already-cleared
identity fields is a no-op releasing nothing), `disconnect` after
`logout` leaves every field null, the combined sequence releases each
resource at most once, and the backend context is released exactly once
exactly when it was present. -/
theorem C9_logout_disconnect_safe (s : SMTPD_STATE) :
    smtpd_sasl_logout (smtpd_sasl_logout s).1 = ((smtpd_sasl_logout s).1, []) ∧
    ((smtpd_sasl_logout s).2 ++ (smtpd_sasl_disconnect (smtpd_sasl_logout s).1).2).Nodup ∧
    ((smtpd_sasl_logout s).2 ++
      (smtpd_sasl_disconnect (smtpd_sasl_logout s).1).2).count Resource.server
      = (if s.sasl_server.isSome then 1 else 0) ∧
    (smtpd_sasl_disconnect (smtpd_sasl_logout s).1).1 = emptyState := by
  obtain ⟨r, ml, u, m, sd, sv⟩ := s
  cases r <;> cases ml <;> cases u <;> cases m <;> cases sd <;> cases sv <;>
    simp [smtpd_sasl_logout, smtpd_sasl_disconnect, emptyState]

/-- C7: after a first successful process-wide initialization, a second
call panics (`msg_panic "repeated call"`, the unrecoverable
configuration-fatal outcome), whatever the arguments of the second call. -/
theorem C7_repeated_init_panics (a1 : Bool) (c1 : Nat) (k1 : Bool) (opts0 : Nat)
    (a2 : Bool) (c2 : Nat) (k2 : Bool)
    (h : (smtpd_sasl_init a1 c1 k1 none opts0).1 = InitResult.ok) :
    (smtpd_sasl_init a2 c2 k2 (smtpd_sasl_init a1 c1 k1 none opts0).2.1
        (smtpd_sasl_init a1 c1 k1 none opts0).2.2).1 = InitResult.panicRepeated := by
  unfold smtpd_sasl_init at *
  cases k1 <;> simp_all

/-- Witness for C7 at concrete arguments. -/
theorem C7_repeated_init_panics_witness :
    (smtpd_sasl_init true 7 true none 0).1 = InitResult.ok ∧
    (smtpd_sasl_init false 0 true (smtpd_sasl_init true 7 true none 0).2.1
        (smtpd_sasl_init true 7 true none 0).2.2).1 = InitResult.panicRepeated :=
  ⟨by decide, C7_repeated_init_panics true 7 true 0 false 0 true (by decide)⟩

/-- C5 (corrected): an authentication request on a context that is
already authenticated does not produce the recoverable Disabled reply:
the code runs `msg_panic("already authenticated")`, an unrecoverable
process-level failure, making no external call and leaving the state
as is. -/
theorem C5_amended (opts : Nat) (vc : List Nat → List Nat → Bool)
    (vch : List Nat → List Nat → List Nat → Bool) (chal : List Nat)
    (resps : List (List Nat)) (m : List Nat) (ir : Option (List Nat))
    (s : SMTPD_STATE)
    (h : s.sasl_username.isSome = true ∨ s.sasl_method.isSome = true) :
    smtpd_pw_server_authenticate opts vc vch chal resps m ir s
      = (PwResult.panic, s, []) := by
  unfold smtpd_pw_server_authenticate
  rcases h with h | h <;> simp [h]

/-- Witness for the amended C5 theorem at a concrete authenticated state. -/
theorem C5_amended_witness :
    ({ emptyState with sasl_username := some (bytes "alice"),
                       sasl_method := some (bytes "LOGIN") } :
        SMTPD_STATE).sasl_username.isSome = true ∧
    smtpd_pw_server_authenticate 7 (fun _ _ => true) (fun _ _ _ => true) [] []
        (bytes "LOGIN") none
        { emptyState with sasl_username := some (bytes "alice"),
                          sasl_method := some (bytes "LOGIN") }
      = (PwResult.panic,
         { emptyState with sasl_username := some (bytes "alice"),
                           sasl_method := some (bytes "LOGIN") }, []) :=
  ⟨by decide,
   C5_amended 7 (fun _ _ => true) (fun _ _ _ => true) [] [] (bytes "LOGIN") none
     _ (Or.inl (by decide))⟩

/-- C5 counterexample: at a concrete already-authenticated state the
outcome is the `msg_panic`, not any Disabled 504 reply. -/
theorem C5_counterexample :
    (smtpd_pw_server_authenticate 7 (fun _ _ => true) (fun _ _ _ => true) [] []
        (bytes "LOGIN") none
        { emptyState with sasl_username := some (bytes "alice"),
                          sasl_method := some (bytes "LOGIN") }).1
      = PwResult.panic ∧
    PwResult.panic ≠ PwResult.reply "504 Unsupported authentication method" ∧
    PwResult.panic ≠ PwResult.reply "504 Authentication method not enabled" := by
  refine ⟨rfl, by decide, by decide⟩

/-- C6: a mechanism whose policy bit is absent returns the 504
not-enabled reply with an empty event trace — no transport round trip,
no backend call, no identity-store call — and an unchanged state. -/
theorem C6_disabled_no_transport (opts : Nat) (vc : List Nat → List Nat → Bool)
    (vch : List Nat → List Nat → List Nat → Bool) (chal : List Nat)
    (resps : List (List Nat)) (m : List Nat) (ir : Option (List Nat))
    (s : SMTPD_STATE) :
    (opts &&& PW_SERVER_LOGIN = 0 →
      do_auth_login opts vc resps m s
        = (PwResult.reply "504 Authentication method not enabled", s, [])) ∧
    (opts &&& PW_SERVER_PLAIN = 0 →
      do_auth_plain opts vc resps m ir s
        = (PwResult.reply "504 Authentication method not enabled", s, [])) ∧
    (opts &&& PW_SERVER_CRAM_MD5 = 0 →
      do_auth_cram_md5 opts vch chal resps m s
        = (PwResult.reply "504 Authentication method not enabled", s, [])) := by
  refine ⟨fun h => ?_, fun h => ?_, fun h => ?_⟩ <;>
    simp [do_auth_login, do_auth_plain, do_auth_cram_md5, h]

/-- Witness for C6 with every mechanism disabled (mask 0). -/
theorem C6_disabled_no_transport_witness :
    (0 &&& PW_SERVER_LOGIN = 0 ∧ 0 &&& PW_SERVER_PLAIN = 0 ∧
     0 &&& PW_SERVER_CRAM_MD5 = 0) ∧
    do_auth_login 0 (fun _ _ => true) [bytes "AWE="] (bytes "LOGIN") emptyState
      = (PwResult.reply "504 Authentication method not enabled", emptyState, []) ∧
    do_auth_plain 0 (fun _ _ => true) [] (bytes "PLAIN")
        (some (bytes "AGJvYgBodW50ZXIy")) emptyState
      = (PwResult.reply "504 Authentication method not enabled", emptyState, []) ∧
    do_auth_cram_md5 0 (fun _ _ _ => true) (bytes "<c@h>") [bytes "AWE="]
        (bytes "CRAM-MD5") emptyState
      = (PwResult.reply "504 Authentication method not enabled", emptyState, []) :=
  ⟨⟨by decide, by decide, by decide⟩,
   (C6_disabled_no_transport 0 (fun _ _ => true) (fun _ _ _ => true) (bytes "<c@h>")
      [bytes "AWE="] (bytes "LOGIN") (some (bytes "AGJvYgBodW50ZXIy")) emptyState).1
     (by decide),
   (C6_disabled_no_transport 0 (fun _ _ => true) (fun _ _ _ => true) (bytes "<c@h>")
      [] (bytes "PLAIN") (some (bytes "AGJvYgBodW50ZXIy")) emptyState).2.1
     (by decide),
   (C6_disabled_no_transport 0 (fun _ _ => true) (fun _ _ _ => true) (bytes "<c@h>")
      [bytes "AWE="] (bytes "CRAM-MD5") (some (bytes "AGJvYgBodW50ZXIy")) emptyState).2.2
     (by decide)⟩

/-- A LOGIN attempt either leaves the state untouched or sets both
identity fields. -/
theorem do_auth_login_state (opts : Nat) (vc : List Nat → List Nat → Bool)
    (resps : List (List Nat)) (m : List Nat) (s : SMTPD_STATE) :
    (do_auth_login opts vc resps m s).2.1 = s ∨
    ((do_auth_login opts vc resps m s).2.1.sasl_username.isSome = true ∧
     (do_auth_login opts vc resps m s).2.1.sasl_method.isSome = true) := by
  unfold do_auth_login
  dsimp only
  repeat' split
  all_goals first | exact Or.inl rfl | exact Or.inr (by simp)

/-- A PLAIN attempt either leaves the state untouched or sets both
identity fields. -/
theorem do_auth_plain_state (opts : Nat) (vc : List Nat → List Nat → Bool)
    (resps : List (List Nat)) (m : List Nat) (ir : Option (List Nat))
    (s : SMTPD_STATE) :
    (do_auth_plain opts vc resps m ir s).2.1 = s ∨
    ((do_auth_plain opts vc resps m ir s).2.1.sasl_username.isSome = true ∧
     (do_auth_plain opts vc resps m ir s).2.1.sasl_method.isSome = true) := by
  unfold do_auth_plain plainParse
  dsimp only
  repeat' split
  all_goals first | exact Or.inl rfl | exact Or.inr (by simp)

/-- A CRAM-MD5 attempt either leaves the state untouched or sets both
identity fields. -/
theorem do_auth_cram_md5_state (opts : Nat)
    (vch : List Nat → List Nat → List Nat → Bool) (chal : List Nat)
    (resps : List (List Nat)) (m : List Nat) (s : SMTPD_STATE) :
    (do_auth_cram_md5 opts vch chal resps m s).2.1 = s ∨
    ((do_auth_cram_md5 opts vch chal resps m s).2.1.sasl_username.isSome = true ∧
     (do_auth_cram_md5 opts vch chal resps m s).2.1.sasl_method.isSome = true) := by
  unfold do_auth_cram_md5
  dsimp only
  repeat' split
  all_goals first | exact Or.inl rfl | exact Or.inr (by simp)

/-- A generic backend attempt either leaves the state untouched or
sets both identity fields. -/
theorem smtpd_sasl_authenticate_state (sc : BackendScript)
    (resps : List (List Nat)) (m : List Nat) (s : SMTPD_STATE) :
    (smtpd_sasl_authenticate sc resps m s).2.1 = s ∨
    ((smtpd_sasl_authenticate sc resps m s).2.1.sasl_username.isSome = true ∧
     (smtpd_sasl_authenticate sc resps m s).2.1.sasl_method.isSome = true) := by
  unfold smtpd_sasl_authenticate
  dsimp only
  repeat' split
  all_goals first | exact Or.inl rfl | exact Or.inr (by simp)

/-- A password-server dispatch either leaves the state untouched or
sets both identity fields. -/
theorem smtpd_pw_server_authenticate_state (opts : Nat)
    (vc : List Nat → List Nat → Bool)
    (vch : List Nat → List Nat → List Nat → Bool) (chal : List Nat)
    (resps : List (List Nat)) (m : List Nat) (ir : Option (List Nat))
    (s : SMTPD_STATE) :
    (smtpd_pw_server_authenticate opts vc vch chal resps m ir s).2.1 = s ∨
    ((smtpd_pw_server_authenticate opts vc vch chal resps m ir s).2.1.sasl_username.isSome
        = true ∧
     (smtpd_pw_server_authenticate opts vc vch chal resps m ir s).2.1.sasl_method.isSome
        = true) := by
  unfold smtpd_pw_server_authenticate
  repeat' split
  · exact Or.inl rfl
  · exact do_auth_login_state opts vc resps m s
  · exact do_auth_plain_state opts vc resps m ir s
  · exact do_auth_cram_md5_state opts vch chal resps m s
  · exact Or.inl rfl

/-- The operation `logout` always nulls both identity fields. -/
theorem smtpd_sasl_logout_clears (s : SMTPD_STATE) :
    (smtpd_sasl_logout s).1.sasl_username = none ∧
    (smtpd_sasl_logout s).1.sasl_method = none := by
  obtain ⟨r, ml, u, m, sd, sv⟩ := s
  cases u <;> cases m <;> simp [smtpd_sasl_logout]

/-- Every single operation preserves the both-or-neither identity
invariant. -/
theorem applyOp_inv (s : SMTPD_STATE) (op : Op) (h : authInv s = true) :
    authInv (applyOp s op) = true := by
  cases op with
  | connect ok mechs =>
      simp only [applyOp]
      unfold smtpd_sasl_connect authInv
      dsimp only
      repeat' split
      all_goals simp
  | authenticate sc rs m =>
      rcases smtpd_sasl_authenticate_state sc rs m s with hs | ⟨h1, h2⟩
      · simpa [applyOp, hs] using h
      · simp [applyOp, authInv, h1, h2]
  | pwAuthenticate o vc vch ch rs m ir =>
      rcases smtpd_pw_server_authenticate_state o vc vch ch rs m ir s with hs | ⟨h1, h2⟩
      · simpa [applyOp, hs] using h
      · simp [applyOp, authInv, h1, h2]
  | logout =>
      have := smtpd_sasl_logout_clears s
      simp [applyOp, authInv, this.1, this.2]
  | disconnect =>
      simp [applyOp, smtpd_sasl_disconnect, authInv, emptyState]

/-- C1: over every sequence of connect / authenticate (generic or
password-server) / logout / disconnect operations, a state satisfying
the both-or-neither identity invariant keeps satisfying it: no
operation ever leaves exactly one of `sasl_username`, `sasl_method`
set. -/
theorem C1_identity_invariant (ops : List Op) (s : SMTPD_STATE)
    (h : authInv s = true) : authInv (ops.foldl applyOp s) = true := by
  induction ops generalizing s with
  | nil => exact h
  | cons op rest ih => exact ih (applyOp s op) (applyOp_inv s op h)

/-- Witness for C1 on a concrete operation sequence from the empty
state: connect, a successful generic authentication, logout,
disconnect. -/
theorem C1_identity_invariant_witness :
    authInv emptyState = true ∧
    authInv ([Op.connect true (some (bytes "PLAIN LOGIN")),
              Op.authenticate
                ⟨(XsaslStatus.DONE, []), [], some (bytes "alice")⟩ [] (bytes "PLAIN"),
              Op.logout, Op.disconnect].foldl applyOp emptyState) = true :=
  ⟨by decide,
   C1_identity_invariant
     [Op.connect true (some (bytes "PLAIN LOGIN")),
      Op.authenticate ⟨(XsaslStatus.DONE, []), [], some (bytes "alice")⟩ [] (bytes "PLAIN"),
      Op.logout, Op.disconnect] emptyState (by decide)⟩

/-- One `MORE` round of the loop on a non-abort line: feed the line to
the backend and continue. -/
theorem genericLoop_cons_step (rep rep1 r : List Nat) (hr : ¬ r = starLine)
    (ns : List (XsaslStatus × List Nat)) (rs : List (List Nat)) :
    genericLoop XsaslStatus.MORE rep ((XsaslStatus.MORE, rep1) :: ns) (r :: rs)
      = ((genericLoop XsaslStatus.MORE rep1 ns rs).1,
         [Event.chatReply (bytes "334 " ++ rep), Event.chatQuery] ++
           Event.backendNext r :: (genericLoop XsaslStatus.MORE rep1 ns rs).2) := by
  rw [genericLoop.eq_def]
  simp [hr]

/-- A `MORE` round whose client line is the abort token ends the loop
at once, feeding nothing to the backend. -/
theorem genericLoop_star_abort (rep : List Nat)
    (nexts : List (XsaslStatus × List Nat)) (rs2 : List (List Nat)) :
    (genericLoop XsaslStatus.MORE rep nexts (starLine :: rs2)).1 = LoopExit.aborted ∧
    Event.backendNext starLine ∉
      (genericLoop XsaslStatus.MORE rep nexts (starLine :: rs2)).2 := by
  rw [genericLoop.eq_def]
  simp

/-- If the backend keeps asking for more data through `rs1.length`
rounds and no line of `rs1` is the abort token, a `*` line right after
them makes the loop abort, and the `*` line is never fed to
`xsasl_server_next`. -/
theorem genericLoop_star :
    ∀ (rs1 : List (List Nat)) (nexts : List (XsaslStatus × List Nat))
      (rep : List Nat) (rs2 : List (List Nat)),
      starLine ∉ rs1 → rs1.length ≤ nexts.length →
      (∀ p ∈ nexts.take rs1.length, p.1 = XsaslStatus.MORE) →
      (genericLoop XsaslStatus.MORE rep nexts (rs1 ++ starLine :: rs2)).1
          = LoopExit.aborted ∧
      Event.backendNext starLine ∉
        (genericLoop XsaslStatus.MORE rep nexts (rs1 ++ starLine :: rs2)).2
  | [], nexts, rep, rs2, _, _, _ => by
      rw [List.nil_append]
      exact genericLoop_star_abort rep nexts rs2
  | r :: rs1, nexts, rep, rs2, hstar, hlen, hmore => by
      have hr : ¬ r = starLine := by
        intro h
        exact hstar (by simp [h])
      have hr2 : starLine ≠ r := fun hq => hr hq.symm
      cases nexts with
      | nil => simp at hlen
      | cons n ns =>
        obtain ⟨st1, rep1⟩ := n
        have hn : st1 = XsaslStatus.MORE := by
          have := hmore (st1, rep1) (by simp [List.take_succ_cons])
          simpa using this
        subst hn
        have ih := genericLoop_star rs1 ns rep1 rs2
          (fun hm => hstar (List.mem_cons_of_mem _ hm))
          (by simpa using hlen)
          (fun p hp => hmore p (by
            simp only [List.length_cons, List.take_succ_cons, List.mem_cons]
            exact Or.inr hp))
        rw [List.cons_append, genericLoop_cons_step rep rep1 r hr ns (rs1 ++ starLine :: rs2)]
        exact ⟨ih.1, by simp [ih.2, hr2]⟩

/-- C2 (corrected): a `*` client line at any round makes the Generic,
LOGIN and CRAM-MD5 handlers yield the Aborted outcome (501
authentication-aborted reply) without feeding the line to the backend
or the identity store, leaving the session state unchanged; the PLAIN
handler however performs no abort check, so the `*` line goes to the
base64 decoder and the outcome is the malformed-initial-response 501 —
likewise without any identity-store call and with the state
unchanged. -/
theorem C2_amended :
    (∀ (sc : BackendScript) (rs1 rs2 : List (List Nat)) (m : List Nat)
       (s : SMTPD_STATE),
       sc.firstStep.1 = XsaslStatus.MORE →
       starLine ∉ rs1 → rs1.length ≤ sc.nexts.length →
       (∀ p ∈ sc.nexts.take rs1.length, p.1 = XsaslStatus.MORE) →
       (smtpd_sasl_authenticate sc (rs1 ++ starLine :: rs2) m s).1
           = AuthOutcome.aborted ∧
       (smtpd_sasl_authenticate sc (rs1 ++ starLine :: rs2) m s).2.1 = s ∧
       Event.backendNext starLine ∉
         (smtpd_sasl_authenticate sc (rs1 ++ starLine :: rs2) m s).2.2) ∧
    (∀ (opts : Nat) (vc : List Nat → List Nat → Bool) (rest : List (List Nat))
       (m : List Nat) (s : SMTPD_STATE), opts &&& PW_SERVER_LOGIN ≠ 0 →
       do_auth_login opts vc (starLine :: rest) m s
         = (PwResult.reply "501 Authentication aborted", s,
            [Event.chatReply (bytes "334 " ++ base64_encode (bytes "Username:")),
             Event.chatQuery])) ∧
    (∀ (opts : Nat) (vc : List Nat → List Nat → Bool) (r1 u : List Nat)
       (rest : List (List Nat)) (m : List Nat) (s : SMTPD_STATE),
       opts &&& PW_SERVER_LOGIN ≠ 0 →
       r1 ≠ starLine → base64_decode r1 = some u →
       do_auth_login opts vc (r1 :: starLine :: rest) m s
         = (PwResult.reply "501 Authentication aborted", s,
            [Event.chatReply (bytes "334 " ++ base64_encode (bytes "Username:")),
             Event.chatQuery,
             Event.chatReply (bytes "334 " ++ base64_encode (bytes "Password:")),
             Event.chatQuery])) ∧
    (∀ (opts : Nat) (vch : List Nat → List Nat → List Nat → Bool)
       (chal : List Nat) (rest : List (List Nat)) (m : List Nat)
       (s : SMTPD_STATE), opts &&& PW_SERVER_CRAM_MD5 ≠ 0 →
       do_auth_cram_md5 opts vch chal (starLine :: rest) m s
         = (PwResult.reply "501 Authentication aborted", s,
            [Event.chatReply (bytes "334 " ++ base64_encode chal),
             Event.chatQuery])) ∧
    (∀ (opts : Nat) (vc : List Nat → List Nat → Bool) (rest : List (List Nat))
       (m : List Nat) (s : SMTPD_STATE), opts &&& PW_SERVER_PLAIN ≠ 0 →
       do_auth_plain opts vc (starLine :: rest) m none s
         = (PwResult.reply "501 Authentication failed: malformed initial response",
            s, [Event.chatReply (bytes "334"), Event.chatQuery])) := by
  refine ⟨?_, ?_, ?_, ?_, ?_⟩
  · intro sc rs1 rs2 m s hfirst hstar hlen hmore
    obtain ⟨⟨st0, rep0⟩, nexts, uname⟩ := sc
    simp only at hfirst hlen hmore
    subst hfirst
    have hloop := genericLoop_star rs1 nexts rep0 rs2 hstar hlen hmore
    simp only [smtpd_sasl_authenticate]
    rw [hloop.1]
    exact ⟨rfl, rfl, by simp [hloop.2]⟩
  · intro opts vc rest m s h
    simp [do_auth_login, h]
  · intro opts vc r1 u rest m s h hr1 hdec
    simp [do_auth_login, h, hr1, hdec]
  · intro opts vch chal rest m s h
    simp [do_auth_cram_md5, h]
  · intro opts vc rest m s h
    have hdec : base64_decode starLine = none := by decide
    simp [do_auth_plain, h, hdec]

/-- Witness for the amended C2 theorem: each handler at a concrete
enabled configuration receiving `*`. -/
theorem C2_amended_witness :
    ((smtpd_sasl_authenticate ⟨(XsaslStatus.MORE, bytes "Q0g="), [], none⟩
        [starLine] (bytes "PLAIN") emptyState).1 = AuthOutcome.aborted ∧
     (smtpd_sasl_authenticate ⟨(XsaslStatus.MORE, bytes "Q0g="), [], none⟩
        [starLine] (bytes "PLAIN") emptyState).2.1 = emptyState ∧
     Event.backendNext starLine ∉
       (smtpd_sasl_authenticate ⟨(XsaslStatus.MORE, bytes "Q0g="), [], none⟩
          [starLine] (bytes "PLAIN") emptyState).2.2) ∧
    do_auth_login 1 (fun _ _ => true) [starLine] (bytes "LOGIN") emptyState
      = (PwResult.reply "501 Authentication aborted", emptyState,
         [Event.chatReply (bytes "334 " ++ base64_encode (bytes "Username:")),
          Event.chatQuery]) ∧
    do_auth_login 1 (fun _ _ => true) [bytes "AWE=", starLine] (bytes "LOGIN")
        emptyState
      = (PwResult.reply "501 Authentication aborted", emptyState,
         [Event.chatReply (bytes "334 " ++ base64_encode (bytes "Username:")),
          Event.chatQuery,
          Event.chatReply (bytes "334 " ++ base64_encode (bytes "Password:")),
          Event.chatQuery]) ∧
    do_auth_cram_md5 4 (fun _ _ _ => true) (bytes "<c@h>") [starLine]
        (bytes "CRAM-MD5") emptyState
      = (PwResult.reply "501 Authentication aborted", emptyState,
         [Event.chatReply (bytes "334 " ++ base64_encode (bytes "<c@h>")),
          Event.chatQuery]) ∧
    do_auth_plain 2 (fun _ _ => true) [starLine] (bytes "PLAIN") none emptyState
      = (PwResult.reply "501 Authentication failed: malformed initial response",
         emptyState, [Event.chatReply (bytes "334"), Event.chatQuery]) :=
  ⟨C2_amended.1 ⟨(XsaslStatus.MORE, bytes "Q0g="), [], none⟩ [] [] (bytes "PLAIN")
     emptyState rfl (by decide) (by decide) (by decide),
   C2_amended.2.1 1 (fun _ _ => true) [] (bytes "LOGIN") emptyState (by decide),
   C2_amended.2.2.1 1 (fun _ _ => true) (bytes "AWE=") [1, 97] [] (bytes "LOGIN")
     emptyState (by decide) (by decide) (by decide),
   C2_amended.2.2.2.1 4 (fun _ _ _ => true) (bytes "<c@h>") [] (bytes "CRAM-MD5")
     emptyState (by decide),
   C2_amended.2.2.2.2 2 (fun _ _ => true) [] (bytes "PLAIN") emptyState (by decide)⟩

/-- C2 counterexample: the PLAIN handler receiving the literal `*`
line does not yield the authentication-aborted 501 the claim requires;
it yields the malformed-initial-response 501. -/
theorem C2_counterexample :
    (do_auth_plain 2 (fun _ _ => true) [starLine] (bytes "PLAIN") none
        emptyState).1
      = PwResult.reply "501 Authentication failed: malformed initial response" ∧
    (do_auth_plain 2 (fun _ _ => true) [starLine] (bytes "PLAIN") none
        emptyState).1
      ≠ PwResult.reply "501 Authentication aborted" := by
  refine ⟨by decide, by decide⟩

/-- The function `takeWhile` passes over a prefix whose elements all satisfy the
predicate. -/
theorem takeWhile_append_all (p : Nat → Bool) :
    ∀ (l1 l2 : List Nat), (∀ x ∈ l1, p x = true) →
      (l1 ++ l2).takeWhile p = l1 ++ l2.takeWhile p
  | [], l2, _ => by simp
  | x :: l1, l2, h => by
      have hx := h x (by simp)
      simp [List.takeWhile_cons, hx,
        takeWhile_append_all p l1 l2 (fun y hy => h y (by simp [hy]))]

/-- The function `dropWhile` drops a prefix whose elements all satisfy the
predicate. -/
theorem dropWhile_append_all (p : Nat → Bool) :
    ∀ (l1 l2 : List Nat), (∀ x ∈ l1, p x = true) →
      (l1 ++ l2).dropWhile p = l2.dropWhile p
  | [], l2, _ => by simp
  | x :: l1, l2, h => by
      have hx := h x (by simp)
      simp [List.dropWhile_cons, hx,
        dropWhile_append_all p l1 l2 (fun y hy => h y (by simp [hy]))]

/-- A NUL-free byte list is its own C-string view. -/
theorem cstr_of_no_nul (l : List Nat) (h : 0 ∉ l) : cstr l = l := by
  unfold cstr
  simpa using takeWhile_append_all (fun b => decide (b ≠ 0)) l []
    (fun x hx => by
      simp only [decide_eq_true_eq, ne_eq]
      rintro rfl
      exact h hx)

/-- Pointwise NUL-freeness as the Boolean predicate `takeWhile` uses. -/
theorem no_nul_all (l : List Nat) (h : 0 ∉ l) :
    ∀ x ∈ l, (decide (x ≠ 0)) = true := fun x hx => by
  simp only [decide_eq_true_eq, ne_eq]
  rintro rfl
  exact h hx
/-- Value of `plainParse` on a payload with the empty-authzid marker: skip the
leading NUL, take `user` up to the next NUL, and pass the C-string
after it as the password. -/
theorem plainParse_empty_azid (vc : List Nat → List Nat → Bool)
    (user tail m : List Nat) (s : SMTPD_STATE) (evs : List Event)
    (hu : 0 ∉ user) :
    plainParse vc (0 :: (user ++ 0 :: tail)) m s evs
      = (if vc user (cstr tail) then PwResult.ok
         else PwResult.reply "535 Error: authentication failed",
         if vc user (cstr tail) then
           { s with sasl_username := some user, sasl_method := some m }
         else s,
         evs ++ [Event.verifyClear user (cstr tail)]) := by
  have t1 := takeWhile_append_all (fun b => decide (b ≠ 0)) user (0 :: tail)
    (no_nul_all user hu)
  have t2 := dropWhile_append_all (fun b => decide (b ≠ 0)) user (0 :: tail)
    (no_nul_all user hu)
  simp at t1 t2
  unfold cstr
  simp [plainParse, t1, t2]
  split <;> simp

/-- Value of `plainParse` on a payload whose leading field is non-empty: no NUL
is skipped, the whole leading field (the authzid position) becomes the
"user", and the following field becomes the "password". -/
theorem plainParse_nonempty_azid (vc : List Nat → List Nat → Bool)
    (a : Nat) (azid tail m : List Nat) (s : SMTPD_STATE) (evs : List Event)
    (ha : 0 ∉ a :: azid) :
    plainParse vc ((a :: azid) ++ 0 :: tail) m s evs
      = (if vc (a :: azid) (cstr tail) then PwResult.ok
         else PwResult.reply "535 Error: authentication failed",
         if vc (a :: azid) (cstr tail) then
           { s with sasl_username := some (a :: azid), sasl_method := some m }
         else s,
         evs ++ [Event.verifyClear (a :: azid) (cstr tail)]) := by
  have ha0 : ¬ a = 0 := fun h => ha (by simp [h])
  have t1 := takeWhile_append_all (fun b => decide (b ≠ 0)) (a :: azid) (0 :: tail)
    (no_nul_all _ ha)
  have t2 := dropWhile_append_all (fun b => decide (b ≠ 0)) (a :: azid) (0 :: tail)
    (no_nul_all _ ha)
  simp at t1 t2
  unfold cstr
  simp only [List.cons_append, plainParse, ha0, if_false]
  simp [t1, t2]
  split <;> simp

/-- C3 (corrected): for a PLAIN payload with an *empty* authzid
(leading NUL), the handler skips the NUL, extracts authcid and
password at the NUL separators and calls
`verifyClearText(authcid, password)`; but for a *non-empty* authzid the
handler instead passes (authzid, authcid) to the identity store — the
password is never read. -/
theorem C3_amended :
    (∀ (opts : Nat) (vc : List Nat → List Nat → Bool)
       (token authcid pwd m : List Nat) (s : SMTPD_STATE),
       opts &&& PW_SERVER_PLAIN ≠ 0 →
       base64_decode token = some (0 :: (authcid ++ 0 :: pwd)) →
       0 ∉ authcid → 0 ∉ pwd →
       do_auth_plain opts vc [] m (some token) s
         = (if vc authcid pwd then PwResult.ok
            else PwResult.reply "535 Error: authentication failed",
            if vc authcid pwd then
              { s with sasl_username := some authcid, sasl_method := some m }
            else s,
            [Event.verifyClear authcid pwd])) ∧
    (∀ (opts : Nat) (vc : List Nat → List Nat → Bool) (token : List Nat)
       (a : Nat) (azid authcid pwd m : List Nat) (s : SMTPD_STATE),
       opts &&& PW_SERVER_PLAIN ≠ 0 →
       base64_decode token = some ((a :: azid) ++ 0 :: (authcid ++ 0 :: pwd)) →
       0 ∉ a :: azid → 0 ∉ authcid →
       do_auth_plain opts vc [] m (some token) s
         = (if vc (a :: azid) authcid then PwResult.ok
            else PwResult.reply "535 Error: authentication failed",
            if vc (a :: azid) authcid then
              { s with sasl_username := some (a :: azid), sasl_method := some m }
            else s,
            [Event.verifyClear (a :: azid) authcid])) := by
  constructor
  · intro opts vc token authcid pwd m s h hdec hna hnp
    simp only [do_auth_plain, h, if_false, hdec]
    rw [plainParse_empty_azid vc authcid pwd m s [] hna, cstr_of_no_nul pwd hnp]
    simp
  · intro opts vc token a azid authcid pwd m s h hdec ha hna
    have hc : cstr (authcid ++ 0 :: pwd) = authcid := by
      have t := takeWhile_append_all (fun b => decide (b ≠ 0)) authcid (0 :: pwd)
        (no_nul_all _ hna)
      unfold cstr
      simpa using t
    simp only [do_auth_plain, h, if_false, hdec]
    rw [plainParse_nonempty_azid vc a azid (authcid ++ 0 :: pwd) m s [] ha, hc]
    simp

/-- Witness for the amended C3 theorem: the instance named by the spec — payload
`\0bob\0hunter2` against a store accepting ("bob", "hunter2") yields
success with username "bob" — plus a non-empty-authzid instance. -/
theorem C3_amended_witness :
    base64_decode (bytes "AGJvYgBodW50ZXIy")
      = some (0 :: (bytes "bob" ++ 0 :: bytes "hunter2")) ∧
    do_auth_plain 2
        (fun u p => u = bytes "bob" ∧ p = bytes "hunter2") [] (bytes "PLAIN")
        (some (bytes "AGJvYgBodW50ZXIy")) emptyState
      = (PwResult.ok,
         { emptyState with sasl_username := some (bytes "bob"),
                           sasl_method := some (bytes "PLAIN") },
         [Event.verifyClear (bytes "bob") (bytes "hunter2")]) ∧
    do_auth_plain 2 (fun _ _ => false) [] (bytes "PLAIN")
        (some (bytes "YQBib2IAcHc=")) emptyState
      = (PwResult.reply "535 Error: authentication failed", emptyState,
         [Event.verifyClear (bytes "a") (bytes "bob")]) := by
  refine ⟨by decide, ?_, ?_⟩
  · have h := C3_amended.1 2
      (fun u p => decide (u = bytes "bob" ∧ p = bytes "hunter2"))
      (bytes "AGJvYgBodW50ZXIy") (bytes "bob") (bytes "hunter2") (bytes "PLAIN")
      emptyState (by decide) (by decide) (by decide) (by decide)
    rw [h]
    decide
  · have h := C3_amended.2 2 (fun _ _ => false) (bytes "YQBib2IAcHc=")
      97 [] (bytes "bob") (bytes "pw") (bytes "PLAIN") emptyState
      (by decide) (by decide) (by decide) (by decide)
    rw [h]
    decide

/-- C3 counterexample: with a non-empty authzid ("a"), the handler
calls the identity store with (authzid, authcid) = ("a", "bob") — not
with (authcid, password) = ("bob", "pw") as the claim states. -/
theorem C3_counterexample :
    (do_auth_plain 2 (fun _ _ => true) [] (bytes "PLAIN")
        (some (bytes "YQBib2IAcHc=")) emptyState).2.2
      = [Event.verifyClear (bytes "a") (bytes "bob")] ∧
    Event.verifyClear (bytes "bob") (bytes "pw") ∉
      (do_auth_plain 2 (fun _ _ => true) [] (bytes "PLAIN")
        (some (bytes "YQBib2IAcHc=")) emptyState).2.2 := by
  refine ⟨by decide, by decide⟩

/-- Pointwise absence of a byte, as the Boolean predicate the
splitting functions use. -/
theorem not_mem_all (c : Nat) (l : List Nat) (h : c ∉ l) :
    ∀ x ∈ l, (decide (x ≠ c)) = true := fun x hx => by
  simp only [decide_eq_true_eq, ne_eq]
  rintro rfl
  exact h hx

/-- C4 (corrected): a CRAM-MD5 response whose decoded C-string has no
space character falls through to the generic 535
authentication-failed reply (not a 501 malformed-response reply),
without any identity-store call; a response with a space is split at
the first space into username and digest, which are passed verbatim to
the challenge-response verifier together with the challenge that was
sent. -/
theorem C4_amended :
    (∀ (opts : Nat) (vch : List Nat → List Nat → List Nat → Bool)
       (chal token payload : List Nat) (rest : List (List Nat))
       (m : List Nat) (s : SMTPD_STATE),
       opts &&& PW_SERVER_CRAM_MD5 ≠ 0 →
       token ≠ starLine →
       base64_decode token = some payload →
       32 ∉ cstr payload →
       do_auth_cram_md5 opts vch chal (token :: rest) m s
         = (PwResult.reply "535 Error: authentication failed", s,
            [Event.chatReply (bytes "334 " ++ base64_encode chal),
             Event.chatQuery])) ∧
    (∀ (opts : Nat) (vch : List Nat → List Nat → List Nat → Bool)
       (chal token payload pre post : List Nat) (rest : List (List Nat))
       (m : List Nat) (s : SMTPD_STATE),
       opts &&& PW_SERVER_CRAM_MD5 ≠ 0 →
       token ≠ starLine →
       base64_decode token = some payload →
       cstr payload = pre ++ 32 :: post →
       32 ∉ pre →
       do_auth_cram_md5 opts vch chal (token :: rest) m s
         = (if vch pre chal post then PwResult.ok
            else PwResult.reply "535 Error: authentication failed",
            if vch pre chal post then
              { s with sasl_username := some pre, sasl_method := some m }
            else s,
            [Event.chatReply (bytes "334 " ++ base64_encode chal),
             Event.chatQuery, Event.verifyChal pre chal post])) := by
  constructor
  · intro opts vch chal token payload rest m s h ht hdec hmem
    simp [do_auth_cram_md5, h, ht, hdec, hmem]
  · intro opts vch chal token payload pre post rest m s h ht hdec hsplit hpre
    have t1 := takeWhile_append_all (fun b => decide (b ≠ 32)) pre (32 :: post)
      (not_mem_all 32 pre hpre)
    have t2 := dropWhile_append_all (fun b => decide (b ≠ 32)) pre (32 :: post)
      (not_mem_all 32 pre hpre)
    simp at t1 t2
    have hmem : 32 ∈ cstr payload := by
      rw [hsplit]
      simp
    simp only [do_auth_cram_md5, h, if_false, ht, hdec, hsplit, hmem, if_true, t1, t2]
    simp [t1, t2]
    split <;> simp

/-- Witness for the amended C4 theorem: the no-space response
"carolnodigest" gets the 535 reply; the response "carol 0123abcd" is
split into "carol" and the digest "0123abcd" against an accepting
store. -/
theorem C4_amended_witness :
    do_auth_cram_md5 4 (fun _ _ _ => true) (bytes "<c@h>")
        [bytes "Y2Fyb2xub2RpZ2VzdA=="] (bytes "CRAM-MD5") emptyState
      = (PwResult.reply "535 Error: authentication failed", emptyState,
         [Event.chatReply (bytes "334 " ++ base64_encode (bytes "<c@h>")),
          Event.chatQuery]) ∧
    do_auth_cram_md5 4
        (fun u c d => u = bytes "carol" ∧ c = bytes "<c@h>" ∧ d = bytes "0123abcd")
        (bytes "<c@h>") [bytes "Y2Fyb2wgMDEyM2FiY2Q="] (bytes "CRAM-MD5")
        emptyState
      = (PwResult.ok,
         { emptyState with sasl_username := some (bytes "carol"),
                           sasl_method := some (bytes "CRAM-MD5") },
         [Event.chatReply (bytes "334 " ++ base64_encode (bytes "<c@h>")),
          Event.chatQuery,
          Event.verifyChal (bytes "carol") (bytes "<c@h>") (bytes "0123abcd")]) := by
  constructor
  · exact C4_amended.1 4 (fun _ _ _ => true) (bytes "<c@h>")
      (bytes "Y2Fyb2xub2RpZ2VzdA==") (bytes "carolnodigest") [] (bytes "CRAM-MD5")
      emptyState (by decide) (by decide) (by decide) (by decide)
  · have h := C4_amended.2 4
      (fun u c d =>
        decide (u = bytes "carol" ∧ c = bytes "<c@h>" ∧ d = bytes "0123abcd"))
      (bytes "<c@h>") (bytes "Y2Fyb2wgMDEyM2FiY2Q=") (bytes "carol 0123abcd")
      (bytes "carol") (bytes "0123abcd") [] (bytes "CRAM-MD5") emptyState
      (by decide) (by decide) (by decide) (by decide) (by decide)
    rw [h]
    decide

/-- C4 counterexample: the no-space CRAM-MD5 response yields the 535
authentication-failed reply, not the 501 malformed-response reply the
claim states. -/
theorem C4_counterexample :
    (do_auth_cram_md5 4 (fun _ _ _ => true) (bytes "<c@h>")
        [bytes "Y2Fyb2xub2RpZ2VzdA=="] (bytes "CRAM-MD5") emptyState).1
      = PwResult.reply "535 Error: authentication failed" ∧
    (do_auth_cram_md5 4 (fun _ _ _ => true) (bytes "<c@h>")
        [bytes "Y2Fyb2xub2RpZ2VzdA=="] (bytes "CRAM-MD5") emptyState).1
      ≠ PwResult.reply "501 Authentication failed: malformed initial response" ∧
    (do_auth_cram_md5 4 (fun _ _ _ => true) (bytes "<c@h>")
        [bytes "Y2Fyb2xub2RpZ2VzdA=="] (bytes "CRAM-MD5") emptyState).1
      ≠ PwResult.reply "501 Authentication failed: malformed response" := by
  refine ⟨by decide, by decide, by decide⟩

/-- Sanitized strings contain only printable bytes. -/
theorem printable_all_printable (l : List Nat) :
    (printable l).all isPrintB = true := by
  induction l with
  | nil => rfl
  | cons b t ih =>
      simp only [printable, List.map_cons, List.all_cons, Bool.and_eq_true]
      refine ⟨?_, by simpa [printable] using ih⟩
      split
      · assumption
      · decide

/-- On generic-path success, the stored username and method are the
sanitized values. -/
theorem auth_success_fields (sc : BackendScript) (rs : List (List Nat))
    (m : List Nat) (s : SMTPD_STATE) (u : List Nat)
    (hu : sc.username = some u)
    (hs : (smtpd_sasl_authenticate sc rs m s).1 = AuthOutcome.success) :
    (smtpd_sasl_authenticate sc rs m s).2.1.sasl_username = some (printable u) ∧
    (smtpd_sasl_authenticate sc rs m s).2.1.sasl_method = some (printable m) := by
  unfold smtpd_sasl_authenticate at hs ⊢
  rw [hu] at hs ⊢
  dsimp only at hs ⊢
  cases hexit : (genericLoop sc.firstStep.1 sc.firstStep.2 sc.nexts rs).1 with
  | aborted => simp [hexit] at hs
  | hang => simp [hexit] at hs
  | normal st rep =>
      simp only [hexit] at hs ⊢
      by_cases hst : st = XsaslStatus.DONE
      · simp [hst]
      · simp [hst] at hs

/-- C8 (corrected): only the generic `smtpd_sasl_authenticate` path
sanitizes: on its success the stored username and method are the
`printable`-filtered values, every byte of which is printable.  Each
direct password-server handler (LOGIN, PLAIN, CRAM-MD5) stores the
decoded username and the given method verbatim, with no sanitization
(see the counterexample for retained non-printable bytes in all
three). -/
theorem C8_amended :
    (∀ (sc : BackendScript) (rs : List (List Nat)) (m : List Nat)
       (s : SMTPD_STATE) (u : List Nat),
       sc.username = some u →
       (smtpd_sasl_authenticate sc rs m s).1 = AuthOutcome.success →
       (smtpd_sasl_authenticate sc rs m s).2.1.sasl_username
           = some (printable u) ∧
       (smtpd_sasl_authenticate sc rs m s).2.1.sasl_method
           = some (printable m) ∧
       (printable u).all isPrintB = true ∧
       (printable m).all isPrintB = true) ∧
    (∀ (opts : Nat) (vc : List Nat → List Nat → Bool) (r1 r2 : List Nat)
       (rest : List (List Nat)) (u p m : List Nat) (s : SMTPD_STATE),
       opts &&& PW_SERVER_LOGIN ≠ 0 → r1 ≠ starLine → r2 ≠ starLine →
       base64_decode r1 = some u → base64_decode r2 = some p →
       vc (cstr u) (cstr p) = true →
       (do_auth_login opts vc (r1 :: r2 :: rest) m s).1 = PwResult.ok ∧
       (do_auth_login opts vc (r1 :: r2 :: rest) m s).2.1.sasl_username
           = some (cstr u) ∧
       (do_auth_login opts vc (r1 :: r2 :: rest) m s).2.1.sasl_method
           = some m) ∧
    (∀ (opts : Nat) (vc : List Nat → List Nat → Bool)
       (token authcid pwd m : List Nat) (s : SMTPD_STATE),
       opts &&& PW_SERVER_PLAIN ≠ 0 →
       base64_decode token = some (0 :: (authcid ++ 0 :: pwd)) →
       0 ∉ authcid → 0 ∉ pwd →
       vc authcid pwd = true →
       (do_auth_plain opts vc [] m (some token) s).1 = PwResult.ok ∧
       (do_auth_plain opts vc [] m (some token) s).2.1.sasl_username
           = some authcid ∧
       (do_auth_plain opts vc [] m (some token) s).2.1.sasl_method
           = some m) ∧
    (∀ (opts : Nat) (vch : List Nat → List Nat → List Nat → Bool)
       (chal token payload pre post : List Nat) (rest : List (List Nat))
       (m : List Nat) (s : SMTPD_STATE),
       opts &&& PW_SERVER_CRAM_MD5 ≠ 0 → token ≠ starLine →
       base64_decode token = some payload →
       cstr payload = pre ++ 32 :: post → 32 ∉ pre →
       vch pre chal post = true →
       (do_auth_cram_md5 opts vch chal (token :: rest) m s).1 = PwResult.ok ∧
       (do_auth_cram_md5 opts vch chal (token :: rest) m s).2.1.sasl_username
           = some pre ∧
       (do_auth_cram_md5 opts vch chal (token :: rest) m s).2.1.sasl_method
           = some m) := by
  refine ⟨?_, ?_, ?_, ?_⟩
  · intro sc rs m s u hu hs
    exact ⟨(auth_success_fields sc rs m s u hu hs).1,
           (auth_success_fields sc rs m s u hu hs).2,
           printable_all_printable u, printable_all_printable m⟩
  · intro opts vc r1 r2 rest u p m s h hr1 hr2 hd1 hd2 hvc
    simp [do_auth_login, h, hr1, hr2, hd1, hd2, hvc]
  · intro opts vc token authcid pwd m s h hdec hna hnp hvc
    simp only [do_auth_plain, h, if_false, hdec]
    rw [plainParse_empty_azid vc authcid pwd m s [] hna, cstr_of_no_nul pwd hnp]
    simp [hvc]
  · intro opts vch chal token payload pre post rest m s h ht hdec hsplit hpre hvc
    have t1 := takeWhile_append_all (fun b => decide (b ≠ 32)) pre (32 :: post)
      (not_mem_all 32 pre hpre)
    have t2 := dropWhile_append_all (fun b => decide (b ≠ 32)) pre (32 :: post)
      (not_mem_all 32 pre hpre)
    simp at t1 t2
    have hmem : 32 ∈ cstr payload := by
      rw [hsplit]
      simp
    simp only [do_auth_cram_md5, h, if_false, ht, hdec, hsplit, hmem, if_true, t1, t2]
    simp [t1, t2, hvc]

/-- Witness for the amended C8 theorem: a generic success storing a
sanitized username, and a LOGIN, a PLAIN and a CRAM-MD5 success each
storing the raw decoded username. -/
theorem C8_amended_witness :
    ((smtpd_sasl_authenticate ⟨(XsaslStatus.DONE, []), [], some [1, 97]⟩ []
        (bytes "PLAIN") emptyState).2.1.sasl_username
       = some (printable [1, 97]) ∧
     printable [1, 97] = [63, 97]) ∧
    ((do_auth_login 1 (fun _ _ => true) [bytes "AWE=", bytes "AWE="]
        (bytes "LOGIN") emptyState).2.1.sasl_username = some (cstr [1, 97]) ∧
     cstr [1, 97] = [1, 97]) ∧
    (do_auth_plain 2 (fun _ _ => true) [] (bytes "PLAIN")
        (some (bytes "AAFhAHA=")) emptyState).2.1.sasl_username
      = some [1, 97] ∧
    (do_auth_cram_md5 4 (fun _ _ _ => true) (bytes "<c@h>") [bytes "AWEgZA=="]
        (bytes "CRAM-MD5") emptyState).2.1.sasl_username = some [1, 97] := by
  refine ⟨?_, ?_, ?_, ?_⟩
  · exact ⟨(C8_amended.1 ⟨(XsaslStatus.DONE, []), [], some [1, 97]⟩ []
        (bytes "PLAIN") emptyState [1, 97] rfl (by decide)).1, by decide⟩
  · exact ⟨(C8_amended.2.1 1 (fun _ _ => true) (bytes "AWE=") (bytes "AWE=") []
        [1, 97] [1, 97] (bytes "LOGIN") emptyState (by decide) (by decide)
        (by decide) (by decide) (by decide) (by decide)).2.1, by decide⟩
  · exact (C8_amended.2.2.1 2 (fun _ _ => true) (bytes "AAFhAHA=") [1, 97] [112]
        (bytes "PLAIN") emptyState (by decide) (by decide) (by decide) (by decide)
        (by decide)).2.1
  · exact (C8_amended.2.2.2 4 (fun _ _ _ => true) (bytes "<c@h>")
        (bytes "AWEgZA==") [1, 97, 32, 100] [1, 97] [100] [] (bytes "CRAM-MD5")
        emptyState (by decide) (by decide) (by decide) (by decide) (by decide)
        (by decide)).2.1

/-- C8 counterexample: successful LOGIN, PLAIN and CRAM-MD5
authentications whose decoded username contains the non-printable
byte 1 each store that byte unchanged in `sasl_username` — no
placeholder replacement happens on any direct path. -/
theorem C8_counterexample :
    (do_auth_login 1 (fun _ _ => true) [bytes "AWE=", bytes "AWE="]
        (bytes "LOGIN") emptyState).1 = PwResult.ok ∧
    (do_auth_login 1 (fun _ _ => true) [bytes "AWE=", bytes "AWE="]
        (bytes "LOGIN") emptyState).2.1.sasl_username = some [1, 97] ∧
    (do_auth_plain 2 (fun _ _ => true) [] (bytes "PLAIN")
        (some (bytes "AAFhAHA=")) emptyState).1 = PwResult.ok ∧
    (do_auth_plain 2 (fun _ _ => true) [] (bytes "PLAIN")
        (some (bytes "AAFhAHA=")) emptyState).2.1.sasl_username = some [1, 97] ∧
    (do_auth_cram_md5 4 (fun _ _ _ => true) (bytes "<c@h>") [bytes "AWEgZA=="]
        (bytes "CRAM-MD5") emptyState).1 = PwResult.ok ∧
    (do_auth_cram_md5 4 (fun _ _ _ => true) (bytes "<c@h>") [bytes "AWEgZA=="]
        (bytes "CRAM-MD5") emptyState).2.1.sasl_username = some [1, 97] ∧
    ([1, 97].all isPrintB) = false := by
  refine ⟨by decide, by decide, by decide, by decide, by decide, by decide,
    by decide⟩

/-- One byte compares equal under ASCII lower-casing iff it does under
ASCII upper-casing. -/
theorem lower_eq_iff_upper_eq (x y : Nat) :
    tolowerB x = tolowerB y ↔ toupperB x = toupperB y := by
  unfold tolowerB toupperB
  repeat' split
  all_goals omega

/-- Two byte strings compare equal under lower-casing iff they do
under upper-casing. -/
theorem map_lower_eq_iff_upper (a : List Nat) :
    ∀ b : List Nat, a.map tolowerB = b.map tolowerB ↔
      a.map toupperB = b.map toupperB := by
  induction a with
  | nil => intro b; cases b <;> simp
  | cons x xs ih =>
      intro b
      cases b with
      | nil => simp
      | cons y ys => simp [lower_eq_iff_upper_eq x y, ih ys]

/-- The `strcasecmp` model agrees with upper-case normalization. -/
theorem strcasecmpEq_iff_upper (a b : List Nat) :
    strcasecmpEq a b = true ↔ a.map toupperB = b.map toupperB := by
  unfold strcasecmpEq
  rw [decide_eq_true_iff]
  exact map_lower_eq_iff_upper a b

/-- C10: mechanism dispatch is case-insensitive — any method name
equal to LOGIN / PLAIN / CRAM-MD5 up to ASCII letter case reaches the
corresponding handler, and only a name matching none of the three
yields the 504 unsupported-method reply. -/
theorem C10_case_insensitive_dispatch (opts : Nat)
    (vc : List Nat → List Nat → Bool)
    (vch : List Nat → List Nat → List Nat → Bool) (chal : List Nat)
    (resps : List (List Nat)) (m : List Nat) (ir : Option (List Nat))
    (s : SMTPD_STATE)
    (hu : s.sasl_username = none) (hm : s.sasl_method = none) :
    (m.map toupperB = bytes "LOGIN" →
       smtpd_pw_server_authenticate opts vc vch chal resps m ir s
         = do_auth_login opts vc resps m s) ∧
    (m.map toupperB = bytes "PLAIN" →
       smtpd_pw_server_authenticate opts vc vch chal resps m ir s
         = do_auth_plain opts vc resps m ir s) ∧
    (m.map toupperB = bytes "CRAM-MD5" →
       smtpd_pw_server_authenticate opts vc vch chal resps m ir s
         = do_auth_cram_md5 opts vch chal resps m s) ∧
    (m.map toupperB ≠ bytes "LOGIN" → m.map toupperB ≠ bytes "PLAIN" →
     m.map toupperB ≠ bytes "CRAM-MD5" →
       smtpd_pw_server_authenticate opts vc vch chal resps m ir s
         = (PwResult.reply "504 Unsupported authentication method", s, [])) := by
  have iffL := strcasecmpEq_iff_upper m (bytes "LOGIN")
  have iffP := strcasecmpEq_iff_upper m (bytes "PLAIN")
  have iffC := strcasecmpEq_iff_upper m (bytes "CRAM-MD5")
  rw [show (bytes "LOGIN").map toupperB = bytes "LOGIN" from by decide] at iffL
  rw [show (bytes "PLAIN").map toupperB = bytes "PLAIN" from by decide] at iffP
  rw [show (bytes "CRAM-MD5").map toupperB = bytes "CRAM-MD5" from by decide] at iffC
  refine ⟨fun h => ?_, fun h => ?_, fun h => ?_, fun h1 h2 h3 => ?_⟩
  · have hL := iffL.mpr h
    simp [smtpd_pw_server_authenticate, hu, hm, hL]
  · have hL : strcasecmpEq m (bytes "LOGIN") = false := by
      rw [← Bool.not_eq_true, iffL, h]
      decide
    have hP := iffP.mpr h
    simp [smtpd_pw_server_authenticate, hu, hm, hL, hP]
  · have hL : strcasecmpEq m (bytes "LOGIN") = false := by
      rw [← Bool.not_eq_true, iffL, h]
      decide
    have hP : strcasecmpEq m (bytes "PLAIN") = false := by
      rw [← Bool.not_eq_true, iffP, h]
      decide
    have hC := iffC.mpr h
    simp [smtpd_pw_server_authenticate, hu, hm, hL, hP, hC]
  · have hL : strcasecmpEq m (bytes "LOGIN") = false := by
      rw [← Bool.not_eq_true, iffL]
      exact h1
    have hP : strcasecmpEq m (bytes "PLAIN") = false := by
      rw [← Bool.not_eq_true, iffP]
      exact h2
    have hC : strcasecmpEq m (bytes "CRAM-MD5") = false := by
      rw [← Bool.not_eq_true, iffC]
      exact h3
    simp [smtpd_pw_server_authenticate, hu, hm, hL, hP, hC]

/-- Witness for C10: the lower-case method name "cram-md5" reaches the
CRAM-MD5 handler, and the unknown name "DIGEST-MD5" gets the 504
unsupported-method reply. -/
theorem C10_case_insensitive_dispatch_witness :
    smtpd_pw_server_authenticate 7 (fun _ _ => true) (fun _ _ _ => true)
        (bytes "<c@h>") [starLine] (bytes "cram-md5") none emptyState
      = do_auth_cram_md5 7 (fun _ _ _ => true) (bytes "<c@h>") [starLine]
          (bytes "cram-md5") emptyState ∧
    smtpd_pw_server_authenticate 7 (fun _ _ => true) (fun _ _ _ => true)
        (bytes "<c@h>") [starLine] (bytes "DIGEST-MD5") none emptyState
      = (PwResult.reply "504 Unsupported authentication method", emptyState, []) :=
  ⟨(C10_case_insensitive_dispatch 7 (fun _ _ => true) (fun _ _ _ => true)
      (bytes "<c@h>") [starLine] (bytes "cram-md5") none emptyState rfl
      rfl).2.2.1 (by decide),
   (C10_case_insensitive_dispatch 7 (fun _ _ => true) (fun _ _ _ => true)
      (bytes "<c@h>") [starLine] (bytes "DIGEST-MD5") none emptyState rfl
      rfl).2.2.2 (by decide) (by decide) (by decide)⟩

end SmtpdSasl
